import Mathlib

/-!
# Verification of the occlusion-aware behavior planning core

Shallow embedding of the repository's Python sources:

* `src/core.py`            — class `Core` (simulation loop, accessors)
* `src/types/ego_car.py`   — class `EgoVehicle` (planner, risk cost, survival)
* `src/types/objects.py`   — classes `Vehicle`, `Pedestrian`, `StaticObject`

Modules `pose.py`, `pose_functions.py`, `risk_functions.py`,
`environment.py` and `_param.py` are not part of the sources; where their
behaviour is needed it is modelled from the specification (each such
definition carries a `Modelled from the spec:` doc comment) or kept
abstract as a parameter.

Numbers are embedded as rationals (Python floats are modelled as exact
rationals); trigonometric functions, which live in the missing `pose.py`
and `pose_functions.py`, are passed as an abstract `Trig` record, and the
risk kernels of the missing `risk_functions.py` are passed as an abstract
`Kernels` record.  Fallible Python code (dictionary subscription, missing
attributes) is embedded in `Except PyErr`.
-/

/-- Python runtime errors that the embedded code can raise. -/
inductive PyErr where
  | attributeError : PyErr
  | keyError : PyErr
  | valueError : PyErr
  deriving DecidableEq, Repr

/-- Round-half-to-even on rationals, the tie-breaking rule of Python's
built-in `round`. -/
def roundHalfEven (q : ℚ) : ℤ :=
  if q - ⌊q⌋ < 1/2 then ⌊q⌋
  else if 1/2 < q - ⌊q⌋ then ⌊q⌋ + 1
  else if Even ⌊q⌋ then ⌊q⌋ else ⌊q⌋ + 1

/-- Python's `round(q, ndigits)` on rationals: scale by `10 ^ ndigits`,
round half to even, scale back. -/
def pyRound (q : ℚ) (ndigits : ℕ) : ℚ :=
  (roundHalfEven (q * 10 ^ ndigits) : ℚ) / 10 ^ ndigits

/-- `roundHalfEven` is the identity on integers. -/
theorem roundHalfEven_intCast (n : ℤ) : roundHalfEven (n : ℚ) = n := by
  unfold roundHalfEven
  rw [Int.floor_intCast]
  norm_num

/-- `roundHalfEven q ≤ q + 1/2`. -/
theorem roundHalfEven_le (q : ℚ) : (roundHalfEven q : ℚ) ≤ q + 1/2 := by
  unfold roundHalfEven
  have hfl : (⌊q⌋ : ℚ) ≤ q := Int.floor_le q
  split_ifs with h1 h2 h3 <;> push_cast <;> linarith

/-- If `q` is an integer multiple of `10 ^ (-d)` then `pyRound q d = q`. -/
theorem pyRound_eq_self (q : ℚ) (d : ℕ) (m : ℤ) (h : q * 10 ^ d = m) :
    pyRound q d = q := by
  unfold pyRound
  rw [h, roundHalfEven_intCast, ← h]
  field_simp

/-- `pyRound q d ≤ q + 1 / (2 * 10 ^ d)`. -/
theorem pyRound_le (q : ℚ) (d : ℕ) :
    pyRound q d ≤ q + 1 / (2 * 10 ^ d) := by
  unfold pyRound
  have h10 : (0:ℚ) < 10 ^ d := by positivity
  rw [div_le_iff₀ h10]
  calc (roundHalfEven (q * 10 ^ d) : ℚ) ≤ q * 10 ^ d + 1/2 :=
        roundHalfEven_le (q * 10 ^ d)
    _ = (q + 1 / (2 * 10 ^ d)) * 10 ^ d := by field_simp; ring

/-- Longitudinal dynamics record, class `VehicleDynamic` of the missing
`pose.py`.  Modelled from the spec: `(vx ≥ 0, dvx)`, longitudinal only. -/
structure VehicleDynamic where
  vx_ms : ℚ
  dvx : ℚ
  deriving DecidableEq, Repr

/-- A pose, class `Pose` of the missing `pose.py`.  Modelled from the
spec: `(x, y, yaw, covLatLong, vdy, t)`; the 2×2 diagonal covariance is
kept as its two diagonal entries. -/
structure Pose where
  x_m : ℚ
  y_m : ℚ
  yaw_rad : ℚ
  covLong : ℚ
  covLat : ℚ
  vdy : VehicleDynamic
  timestamp_s : ℚ
  deriving DecidableEq, Repr

/-- Abstract trigonometric functions (the concrete `cos`/`sin` used by the
missing `pose.py`/`pose_functions.py`); all theorems hold for every
interpretation. -/
structure Trig where
  cos : ℚ → ℚ
  sin : ℚ → ℚ

/-- `Pose.heading`.  Modelled from the spec: returns the unit vector
`(cos yaw, sin yaw)`. -/
def Pose.heading (T : Trig) (p : Pose) : ℚ × ℚ :=
  (T.cos p.yaw_rad, T.sin p.yaw_rad)

/-- Python `dict.update({k: v})` on an insertion-ordered association
list: replace the value at an existing key, else append at the end. -/
def dictUpdate {α : Type} : List (ℚ × α) → ℚ → α → List (ℚ × α)
  | [], k, v => [(k, v)]
  | (k', v') :: rest, k, v =>
      if k' = k then (k, v) :: rest else (k', v') :: dictUpdate rest k v

/-- The named scalar parameters of the missing `_param.py`, as a record.
Field names follow the `param._NAME` constants referenced by the
sources. -/
structure Params where
  dT : ℚ
  SIMULATION_TIME : ℚ
  PREDICT_STEP : ℚ
  PREDICT_TIME : ℚ
  J_MAX : ℚ
  J_MAX_BRAKE : ℚ
  A_MIN : ℚ
  A_MAX : ℚ
  A_MAX_BRAKE : ℚ
  T_BRAKE : ℚ
  T_BRAKE_DELAY : ℚ
  D_BRAKE_MIN : ℚ
  ESCAPE_RATE : ℚ
  COLLISION_RATE_MAX : ℚ
  COLLISION_RATE_EXP_BETA : ℚ
  COLLISION_RATE_EXP_BETA_PEDES : ℚ
  COLLISION_RATE_SIG_BETA : ℚ
  MIN_COL_BRAKE_VEHICLE : ℚ
  MIN_COL_BRAKE_PEDESTRIAN : ℚ
  SEVERITY_SIG_AVG_VX : ℚ
  SEVERITY_SIG_AVG_VX_PEDES : ℚ
  COLLISION_HYPOPEDES_RATE_MAX : ℚ
  EVENT_RATE_HYPOPEDES_EXP_BETA : ℚ
  EVENT_RATE_HYPOPEDES_SIG_BETA : ℚ
  COLLISION_HYPOVEH_RATE_MAX : ℚ
  EVENT_RATE_HYPOVEH_EXP_BETA : ℚ
  EVENT_RATE_HYPOVEH_SIG_BETA : ℚ
  FOV_EVENTRATE_MAX : ℚ
  FOV_EVENTRATE_BETA : ℚ
  FOV_SEVERITY_MIN : ℚ
  FOV_SEVERITY_WEIGHT : ℚ
  covQLong : ℚ
  covQLat : ℚ

/-- Modelled from the spec: the scenario defaults of §8 (`dT = 0.1`,
`PREDICT_STEP = 0.2`, `PREDICT_TIME = 3.0`, `SIM = 10.0`, `A_MIN = −3`,
`A_MAX = 2`, `A_MAX_BRAKE = −6`, `J_MAX = 1`); the remaining tunables of
the missing `_param.py` are given unspecified placeholder values (no
theorem depends on them). -/
def defaultParams : Params where
  dT := 1/10
  SIMULATION_TIME := 10
  PREDICT_STEP := 1/5
  PREDICT_TIME := 3
  J_MAX := 1
  J_MAX_BRAKE := 2
  A_MIN := -3
  A_MAX := 2
  A_MAX_BRAKE := -6
  T_BRAKE := 1
  T_BRAKE_DELAY := 1/2
  D_BRAKE_MIN := 2
  ESCAPE_RATE := 1/100
  COLLISION_RATE_MAX := 1
  COLLISION_RATE_EXP_BETA := 1
  COLLISION_RATE_EXP_BETA_PEDES := 1
  COLLISION_RATE_SIG_BETA := 1
  MIN_COL_BRAKE_VEHICLE := 1/2
  MIN_COL_BRAKE_PEDESTRIAN := 1/5
  SEVERITY_SIG_AVG_VX := 8
  SEVERITY_SIG_AVG_VX_PEDES := 8
  COLLISION_HYPOPEDES_RATE_MAX := 1
  EVENT_RATE_HYPOPEDES_EXP_BETA := 1
  EVENT_RATE_HYPOPEDES_SIG_BETA := 1
  COLLISION_HYPOVEH_RATE_MAX := 1
  EVENT_RATE_HYPOVEH_EXP_BETA := 1
  EVENT_RATE_HYPOVEH_SIG_BETA := 1
  FOV_EVENTRATE_MAX := 1
  FOV_EVENTRATE_BETA := 1
  FOV_SEVERITY_MIN := 1
  FOV_SEVERITY_WEIGHT := 1
  covQLong := 1/100
  covQLat := 1/100

/-- Modelled from the spec (§4.A), function `updatePose` of the missing
`pose_functions.py`: `vx' = max(0, vx + u·dT)`, average speed
`v̄ = (vx + vx')/2`, `x' = x + v̄·cos(yaw)·dT`, `y' = y + v̄·sin(yaw)·dT`,
yaw unchanged, `cov' = cov + Q·dT`.  The spec does not fix the timestamp
of the returned pose; it is taken to be `t + dT` (callers that record the
pose key it by their own rounded timestamp). -/
def updatePose (P : Params) (T : Trig) (lastPose : Pose) (u_in dT : ℚ) : Pose :=
  let vx' := max 0 (lastPose.vdy.vx_ms + u_in * dT)
  let vAvg := (lastPose.vdy.vx_ms + vx') / 2
  { x_m := lastPose.x_m + vAvg * T.cos lastPose.yaw_rad * dT
    y_m := lastPose.y_m + vAvg * T.sin lastPose.yaw_rad * dT
    yaw_rad := lastPose.yaw_rad
    covLong := lastPose.covLong + P.covQLong * dT
    covLat := lastPose.covLat + P.covQLat * dT
    vdy := ⟨vx', u_in⟩
    timestamp_s := lastPose.timestamp_s + dT }

/-- Iterated `updatePose`, keyed at 2 decimals; `n` prediction steps. -/
def updatePoseListAux (P : Params) (T : Trig) (u_in dT : ℚ) :
    ℕ → Pose → List (ℚ × Pose)
  | 0, _ => []
  | n + 1, p =>
      let p' := updatePose P T p u_in dT
      (pyRound p'.timestamp_s 2, p') :: updatePoseListAux P T u_in dT n p'

/-- Modelled from the spec (§4.A), function `updatePoseList` of the
missing `pose_functions.py`: an ordered mapping `t → Pose` at grid points
`last.t + k·dT ≤ tEnd`, each produced by repeated `updatePose`,
timestamps rounded to 2 decimals for keying. -/
def updatePoseList (P : Params) (T : Trig) (lastPose : Pose)
    (u_in nextTimestamp_s dT : ℚ) : List (ℚ × Pose) :=
  updatePoseListAux P T u_in dT
    (Int.toNat ⌊(nextTimestamp_s - lastPose.timestamp_s) / dT⌋) lastPose

/-- A polygon: list of vertices. -/
abbrev Polyg := List (ℚ × ℚ)

/-- Modelled from the spec (§4.B), function `rectangle` of the missing
`pose_functions.py`: the 4 corner points of the oriented rectangle
centred at `(x, y)` with axes along the heading. -/
def rectangle (T : Trig) (x y yaw L W : ℚ) : Polyg :=
  let c := T.cos yaw
  let s := T.sin yaw
  [ (x + c * (L/2) - s * (W/2), y + s * (L/2) + c * (W/2)),
    (x + c * (L/2) + s * (W/2), y + s * (L/2) - c * (W/2)),
    (x - c * (L/2) + s * (W/2), y - s * (L/2) - c * (W/2)),
    (x - c * (L/2) - s * (W/2), y - s * (L/2) + c * (W/2)) ]

/-- Translate every vertex of a polygon by the vector `d • h`; embeds the
expression `egoPoly + egoPose.heading() * D_BRAKE_MIN` of `_riskCost`. -/
def translatePoly (poly : Polyg) (h : ℚ × ℚ) (d : ℚ) : Polyg :=
  poly.map fun v => (v.1 + h.1 * d, v.2 + h.2 * d)

/-- Lookup by key in an insertion-ordered association list (Python
`d[k]` / `k in d`). -/
def dictGet {α : Type} : List (ℚ × α) → ℚ → Option α
  | [], _ => none
  | (k', v) :: rest, k => if k' = k then some v else dictGet rest k

/-- If no key of `l` equals `k`, the lookup misses. -/
theorem dictGet_eq_none {α : Type} (l : List (ℚ × α)) (k : ℚ)
    (h : ∀ kv ∈ l, kv.1 ≠ k) : dictGet l k = none := by
  induction l with
  | nil => rfl
  | cons hd tl ih =>
      unfold dictGet
      rw [if_neg (h hd (List.mem_cons_self hd tl))]
      exact ih fun kv hkv => h kv (List.mem_cons_of_mem hd hkv)

/-- Common agent record for the classes `Vehicle` and `Pedestrian` of
`src/types/objects.py`; the hypothetical variants, which the spec
describes as structurally identical but carrying `appearRate` and
`interactRate` (their classes live in the missing environment modules),
reuse the same record. -/
structure Agent where
  length : ℚ
  width : ℚ
  u : ℚ
  isDetected : Bool
  startTime : ℚ
  stopTimestamp_s : ℚ
  pColl : ℚ
  appearRate : ℚ
  interactRate : ℚ
  currentPose : Pose
  l_pose : List (ℚ × Pose)
  p_pose : List (ℚ × Pose)
  deriving DecidableEq, Repr

/-- `Vehicle.predict` (objects.py lines 140–161) with `const_vx = False`:
clear and refill `_p_pose` by `updatePoseList` from the current pose with
the vehicle's constant acceleration `_u`, horizon `PREDICT_TIME`.  The
grid step (the default `dT` of the missing `updatePoseList`) is taken to
be `P.dT`. -/
def Vehicle.predict (P : Params) (T : Trig) (a : Agent) : Agent :=
  { a with
    p_pose := updatePoseList P T a.currentPose a.u
        (a.currentPose.timestamp_s + P.PREDICT_TIME) P.dT }

/-- `Vehicle.getPredictAt` (objects.py lines 163–169): if the timestamp
is not a key of `_p_pose`, run `predict`; then subscript
`self._p_pose[timestamp_s]`, which raises `KeyError` when the key is
still missing.  The function never returns `None`. -/
def Vehicle.getPredictAt (P : Params) (T : Trig) (a : Agent)
    (timestamp_s : ℚ) : Except PyErr (Agent × Pose × Polyg) :=
  let a' := if (dictGet a.p_pose timestamp_s).isNone
            then Vehicle.predict P T a else a
  match dictGet a'.p_pose timestamp_s with
  | none => .error .keyError
  | some pose =>
      .ok (a', pose,
           rectangle T pose.x_m pose.y_m pose.yaw_rad a'.length a'.width)

/-- Modelled from the spec (§9, "preserved verbatim"): `setCollisionProb`
accumulates via `max(Pcoll, a, 1)`; the method itself lives in the
missing environment modules. -/
def Vehicle.setCollisionProb (a : Agent) (v : ℚ) : Agent :=
  { a with pColl := max (max a.pColl v) 1 }

/-- `Vehicle.move` (objects.py lines 171–184): advance the current pose
by `updatePose` with the constant acceleration `_u`, record it in
`_l_pose` under the key `round(t + dT, 3)`, and reset `_isDetected`. -/
def Vehicle.move (P : Params) (T : Trig) (a : Agent) (dT : ℚ) : Agent :=
  let lastPose := a.currentPose
  let nextTimestamp_s := pyRound (lastPose.timestamp_s + dT) 3
  let nextPose := updatePose P T lastPose a.u dT
  { a with currentPose := nextPose
           l_pose := dictUpdate a.l_pose nextTimestamp_s nextPose
           isDetected := false }

/-- `Pedestrian.move` (objects.py lines 306–325): advance by `updatePose`
while `round(t + dT, 3) < stopTimestamp`, otherwise freeze the position
with `vdy = (0, 0)`; record under the rounded key and reset
`_isDetected`. -/
def Pedestrian.move (P : Params) (T : Trig) (a : Agent) (dT : ℚ) : Agent :=
  let lastPose := a.currentPose
  let nextTimestamp_s := pyRound (lastPose.timestamp_s + dT) 3
  let nextPose :=
    if nextTimestamp_s < a.stopTimestamp_s then
      updatePose P T lastPose a.u dT
    else
      { lastPose with vdy := ⟨0, 0⟩, timestamp_s := nextTimestamp_s }
  { a with currentPose := nextPose
           l_pose := dictUpdate a.l_pose nextTimestamp_s nextPose
           isDetected := false }

/-- Every key produced by `updatePoseListAux` is at most
`p.t + n·dT + 1/200` (the rounding slack of 2-decimal keying). -/
theorem updatePoseListAux_key_le (P : Params) (T : Trig) (u dT : ℚ)
    (hdT : 0 ≤ dT) :
    ∀ (n : ℕ) (p : Pose), ∀ kv ∈ updatePoseListAux P T u dT n p,
      kv.1 ≤ p.timestamp_s + n * dT + 1/200 := by
  intro n
  induction n with
  | zero => intro p kv hkv; simp [updatePoseListAux] at hkv
  | succ m ih =>
      intro p kv hkv
      rw [updatePoseListAux] at hkv
      rcases List.mem_cons.mp hkv with h | h
      · subst h
        have h1 : pyRound ((updatePose P T p u dT).timestamp_s) 2 ≤
            (updatePose P T p u dT).timestamp_s + 1 / (2 * 10 ^ 2) :=
          pyRound_le _ 2
        have h2 : (updatePose P T p u dT).timestamp_s =
            p.timestamp_s + dT := rfl
        have hm : (0:ℚ) ≤ m * dT := by positivity
        rw [h2] at h1
        show pyRound ((updatePose P T p u dT).timestamp_s) 2 ≤ _
        rw [h2]
        push_cast
        linarith
      · have := ih (updatePose P T p u dT) kv h
        have h2 : (updatePose P T p u dT).timestamp_s =
            p.timestamp_s + dT := rfl
        rw [h2] at this
        push_cast at this ⊢
        linarith

/-- Planner state, class `EgoVehicle` of `src/types/ego_car.py`
(constructor lines 26–60).  The four mode booleans are kept exactly as in
the source. -/
structure EgoState where
  length : ℚ
  width : ℚ
  p_u : Option ℚ
  p_pose : List (ℚ × Pose)
  p_eventRate : List (ℚ × ℚ)
  currentPose : Pose
  u : ℚ
  stopState : Bool
  driveOffState : Bool
  defaultState : Bool
  emergencyState : Bool
  minColValue : ℚ
  minRiskValue : ℚ
  TTB : ℚ
  brake : Bool
  fov : Option Polyg
  fovRange : ℚ
  l_u : List (ℚ × ℚ)
  l_pose : List (ℚ × Pose)
  l_opt : List (ℚ × Bool × ℚ)

/-- `EgoVehicle._toStopState` (ego_car.py lines 504–508). -/
def EgoVehicle.toStopState (s : EgoState) : EgoState :=
  { s with stopState := true, driveOffState := false,
           defaultState := false, emergencyState := false }

/-- `EgoVehicle._toDriveOffState` (ego_car.py lines 510–514). -/
def EgoVehicle.toDriveOffState (s : EgoState) : EgoState :=
  { s with stopState := false, driveOffState := true,
           defaultState := false, emergencyState := false }

/-- `EgoVehicle._toDefaultState` (ego_car.py lines 516–520). -/
def EgoVehicle.toDefaultState (s : EgoState) : EgoState :=
  { s with stopState := false, driveOffState := false,
           defaultState := true, emergencyState := false }

/-- `EgoVehicle._toEmergencyState` (ego_car.py lines 522–526). -/
def EgoVehicle.toEmergencyState (s : EgoState) : EgoState :=
  { s with stopState := false, driveOffState := false,
           defaultState := false, emergencyState := true }

/-- `EgoVehicle._move` (ego_car.py lines 405–424): advance one step of
`dT` with the predicted input `p_u` (falling back to `u` when none is
pending), record pose and input under the 2-decimal rounded key, then:
if the new `vx` is 0 switch to Stop and zero `u`; if the new `vx`
exceeds 5 while in DriveOff switch to Default. -/
def EgoVehicle.moveStep (P : Params) (T : Trig) (s : EgoState)
    (dT : ℚ) : EgoState :=
  let lastPose := s.currentPose
  let nextTimestamp_s := pyRound (lastPose.timestamp_s + dT) 2
  let nextU := match s.p_u with
    | some pu => pu
    | none => s.u
  let nextPose := updatePose P T lastPose nextU dT
  let s1 : EgoState :=
    { s with currentPose := nextPose, u := nextU,
             l_pose := dictUpdate s.l_pose nextTimestamp_s nextPose,
             l_u := dictUpdate s.l_u nextTimestamp_s nextU }
  let s2 := if nextPose.vdy.vx_ms = 0
            then { EgoVehicle.toStopState s1 with u := 0 } else s1
  if 5 < s2.currentPose.vdy.vx_ms ∧ s2.driveOffState = true
  then EgoVehicle.toDefaultState s2 else s2

/-- The Stop-mode branch of `optimizeState` (ego_car.py lines 433–448),
given the candidate `val` returned by the bounded search: retrieve
`(brake, minColValue)` from `_l_opt[round(val, 3)]` (`KeyError` when the
key is absent), then either stay (setting `p_u = 0`, `u = 0`) or switch
to DriveOff (setting `p_u = u + (val − u)·dT/predictStep`), then
`_move`. -/
def EgoVehicle.optimizeStateStop (P : Params) (T : Trig) (s : EgoState)
    (dT predictStep val : ℚ) : Except PyErr EgoState :=
  match dictGet s.l_opt (pyRound val 3) with
  | none => .error .keyError
  | some bm =>
      let s := { s with brake := bm.1, minColValue := bm.2 }
      let s :=
        if s.brake = true ∨ 1/2 < s.minColValue then
          { s with p_u := some 0, u := 0 }
        else
          { EgoVehicle.toDriveOffState s with
            p_u := some (s.u + (val - s.u) * dT / predictStep) }
      .ok (EgoVehicle.moveStep P T s dT)

/-- `EgoVehicle.restart` (ego_car.py lines 530–537): `t = min(_l_pose)`
(a `ValueError` on an empty dict), truncate `_l_pose` and `_l_u` to the
single entry at `t`, restore `_u` and `_currentPose` from the histories
(`KeyError` when `t` is not a key of `_l_u`), and go to Default.  The
prediction fields `_p_pose`, `_p_u`, `_p_eventRate` are not touched. -/
def EgoVehicle.restart (s : EgoState) : Except PyErr EgoState :=
  match (s.l_pose.map Prod.fst).min? with
  | none => .error .valueError
  | some t =>
      match dictGet s.l_pose t with
      | none => .error .keyError
      | some firstPose =>
          match dictGet s.l_u t with
          | none => .error .keyError
          | some u0 =>
              .ok (EgoVehicle.toDefaultState
                    { s with l_pose := [(t, firstPose)], u := u0,
                             l_u := [(t, u0)], currentPose := firstPose })

/-- The exponent accumulated by `_survivalRate` (ego_car.py lines
339–347): `(escapeRate + Σ {rate[k] : k ≤ timestamp}) · dT`; the survival
weight of the source is `exp` of its negation (stated at the theorems,
`Real.exp` having no executable code). -/
def survivalExponent (escapeRate dT : ℚ) (p_eventRate : List (ℚ × ℚ))
    (timestamp_s : ℚ) : ℚ :=
  (escapeRate +
    ((p_eventRate.filter fun kv => kv.1 ≤ timestamp_s).map Prod.snd).sum) * dT

/-- Abstract risk kernels of the missing `risk_functions.py` (the spec
§4.C gives only their contracts and closed forms); every theorem over
them holds for every interpretation.  `collisionEventRate` takes
`(indicator, rateMax, expBeta, sigBeta)`; the method-selector strings of
the source are constants absorbed into the interpretation.  `vxUtm` is
the UTM-velocity property of the missing `pose.py`.  `limitViewRisk`
takes `(fovRange, egoVx, covLong)` — performing its own square root for
`stdLon` — and returns `(event, risk)`; its remaining arguments are the
fixed `_param` constants. -/
structure Kernels where
  polygonIntersects : Polyg → Polyg → Bool
  collisionIndicator : Pose → Polyg → Pose → Polyg → ℚ
  collisionEventRate : ℚ → ℚ → ℚ → ℚ → ℚ
  collisionEventSeverity : ℚ → ℚ → ℚ → ℚ
  collisionSeverityHypoPedes : ℚ → ℚ → ℚ
  collisionSeverityHypoVeh : ℚ → ℚ → ℚ
  vxUtm : Pose → ℚ
  limitViewRisk : ℚ → ℚ → ℚ → ℚ × ℚ

/-- `collisionRisk` (spec §4.C fixes it exactly): `severity · rate`. -/
def collisionRisk (col_severity col_rate : ℚ) : ℚ := col_severity * col_rate

/-- Running accumulator of `_riskCost`: the planner fields `_brake` and
`_minColValue` together with `total_eventRate` and `total_risk`. -/
structure RiskAcc where
  brake : Bool
  minColValue : ℚ
  rate : ℚ
  risk : ℚ

/-- The static-object loop of `_riskCost` (ego_car.py lines 170–183). -/
def staticObjLoop (K : Kernels) (P : Params) (egoVx : ℚ) (egoPolygon : Polyg)
    (currentTime TTB timestamp_s : ℚ) : List Polyg → RiskAcc → RiskAcc
  | [], acc => acc
  | sPoly :: rest, acc =>
      let acc :=
        if K.polygonIntersects egoPolygon sPoly = true then
          let sO_eventRate := P.COLLISION_RATE_MAX
          let sO_severity := K.collisionEventSeverity egoVx 0 P.SEVERITY_SIG_AVG_VX
          let acc := { acc with rate := acc.rate + sO_eventRate,
                                risk := acc.risk + sO_eventRate * sO_severity,
                                minColValue := 1 }
          if timestamp_s ≤ currentTime + TTB then { acc with brake := true }
          else acc
        else acc
      staticObjLoop K P egoVx egoPolygon currentTime TTB timestamp_s rest acc

/-- The static-vehicle loop of `_riskCost` (ego_car.py lines 185–198);
returns the (lazily re-predicted) vehicles together with the
accumulator. -/
def staticVehLoop (K : Kernels) (P : Params) (T : Trig) (egoVx : ℚ)
    (egoPolygon : Polyg) (currentTime TTB timestamp_s : ℚ) :
    List Agent → RiskAcc → Except PyErr (List Agent × RiskAcc)
  | [], acc => .ok ([], acc)
  | v :: rest, acc =>
      match Vehicle.getPredictAt P T v timestamp_s with
      | .error e => .error e
      | .ok (v', _, vehPoly) =>
          let acc :=
            if K.polygonIntersects egoPolygon vehPoly = true then
              let sV_eventRate := P.COLLISION_RATE_MAX
              let sV_severity :=
                K.collisionEventSeverity egoVx 0 P.SEVERITY_SIG_AVG_VX
              let acc := { acc with rate := acc.rate + sV_eventRate,
                                    risk := acc.risk + sV_eventRate * sV_severity,
                                    minColValue := 1 }
              if timestamp_s ≤ currentTime + TTB then { acc with brake := true }
              else acc
            else acc
          match staticVehLoop K P T egoVx egoPolygon currentTime TTB
              timestamp_s rest acc with
          | .error e => .error e
          | .ok (vs, acc') => .ok (v' :: vs, acc')

/-- The moving-vehicle / pedestrian loops of `_riskCost` (ego_car.py
lines 200–229 and 231–261), which differ only in the exponential rate
β, the severity `sig_vx` argument and the brake threshold.  The
source's `if vehPose is None: continue` guard is unreachable:
`getPredictAt` never returns `None` (it raises `KeyError` instead). -/
def movingAgentLoop (K : Kernels) (P : Params) (T : Trig) (egoPose : Pose)
    (egoPoly : Polyg) (expBeta sigAvgVx minColBrake : ℚ)
    (currentTime TTB timestamp_s : ℚ) :
    List Agent → RiskAcc → Except PyErr (List Agent × RiskAcc)
  | [], acc => .ok ([], acc)
  | v :: rest, acc =>
      match Vehicle.getPredictAt P T v timestamp_s with
      | .error e => .error e
      | .ok (v', vehPose, vehPoly) =>
          let ind := K.collisionIndicator egoPose egoPoly vehPose vehPoly
          let rate := K.collisionEventRate ind P.COLLISION_RATE_MAX expBeta
            P.COLLISION_RATE_SIG_BETA
          let sev := K.collisionEventSeverity (K.vxUtm egoPose)
            (K.vxUtm vehPose) sigAvgVx
          let risk := collisionRisk sev rate
          let acc := { acc with minColValue := max acc.minColValue ind }
          let acc :=
            if timestamp_s ≤ currentTime + TTB ∧ minColBrake < ind then
              { acc with brake := true }
            else acc
          let acc := { acc with risk := acc.risk + risk,
                                rate := acc.rate + rate }
          let v'' := Vehicle.setCollisionProb v' ind
          match movingAgentLoop K P T egoPose egoPoly expBeta sigAvgVx
              minColBrake currentTime TTB timestamp_s rest acc with
          | .error e => .error e
          | .ok (vs, acc') => .ok (v'' :: vs, acc')

/-- The hypothetical-pedestrian / hypothetical-vehicle loops of
`_riskCost` (ego_car.py lines 263–296 and 298–331): the indicator is
scaled by `appearRate` before the rate, the rate optionally by
`interactRate`; severity comes from the hypo-variant kernel `sevFn`.
Neither `_brake` nor `_minColValue` appears in the loop body. -/
def hypoAgentLoop (K : Kernels) (P : Params) (T : Trig) (egoPose : Pose)
    (egoPoly : Polyg) (useAwarenessRate : Bool) (rateMax expBeta sigBeta : ℚ)
    (sevFn : ℚ → ℚ → ℚ) (timestamp_s : ℚ) :
    List Agent → RiskAcc → Except PyErr (List Agent × RiskAcc)
  | [], acc => .ok ([], acc)
  | hv :: rest, acc =>
      match Vehicle.getPredictAt P T hv timestamp_s with
      | .error e => .error e
      | .ok (hv', hPose, hPoly) =>
          let ind := K.collisionIndicator egoPose egoPoly hPose hPoly
          let rate0 := K.collisionEventRate (ind * hv'.appearRate) rateMax
            expBeta sigBeta
          let rate := if useAwarenessRate = true then rate0 * hv'.interactRate
                      else rate0
          let sev := sevFn (K.vxUtm egoPose) (K.vxUtm hPose)
          let risk := collisionRisk sev rate
          let acc := { acc with risk := acc.risk + risk,
                                rate := acc.rate + rate }
          let hv'' := Vehicle.setCollisionProb hv' ind
          match hypoAgentLoop K P T egoPose egoPoly useAwarenessRate rateMax
              expBeta sigBeta sevFn timestamp_s rest acc with
          | .error e => .error e
          | .ok (hs, acc') => .ok (hv'' :: hs, acc')

/-- The per-tick object snapshot `self._l_currentObject` handed to
`_riskCost` (built by `getCurrentObjectList` of the missing
`environment.py`; only its list structure is needed here). -/
structure Snapshot where
  staticObject : List Polyg
  staticVehicle : List Agent
  vehicle : List Agent
  pedestrian : List Agent
  hypoPedestrian : List Agent
  hypoVehicle : List Agent

/-- Result of `_riskCost`: the updated planner state, the updated
snapshot (lazy predictions, `Pcoll` writes) and `total_risk`. -/
structure RiskOut where
  ego : EgoState
  snap : Snapshot
  total_risk : ℚ

/-- The six object loops of `_riskCost` (ego_car.py lines 170–331) run
in source order — static objects, static vehicles, moving vehicles,
pedestrians, hypothetical pedestrians, hypothetical vehicles — threading
the accumulator and collecting the updated agent lists. -/
def riskCostLoops (K : Kernels) (P : Params) (T : Trig) (egoPose : Pose)
    (egoPoly egoPolygon : Polyg) (currentTime TTB t : ℚ)
    (minCollisionBrakeVehicle minCollisionBrakePedes : ℚ)
    (useAwarenessRate : Bool) (snap : Snapshot) (acc0 : RiskAcc) :
    Except PyErr (Snapshot × RiskAcc) :=
  let acc1 := staticObjLoop K P egoPose.vdy.vx_ms egoPolygon currentTime
    TTB t snap.staticObject acc0
  match staticVehLoop K P T egoPose.vdy.vx_ms egoPolygon currentTime TTB t
      snap.staticVehicle acc1 with
  | .error e => .error e
  | .ok (svs, acc2) =>
    match movingAgentLoop K P T egoPose egoPoly P.COLLISION_RATE_EXP_BETA
        P.SEVERITY_SIG_AVG_VX minCollisionBrakeVehicle currentTime TTB t
        snap.vehicle acc2 with
    | .error e => .error e
    | .ok (vs, acc3) =>
      match movingAgentLoop K P T egoPose egoPoly
          P.COLLISION_RATE_EXP_BETA_PEDES P.SEVERITY_SIG_AVG_VX_PEDES
          minCollisionBrakePedes currentTime TTB t snap.pedestrian acc3 with
      | .error e => .error e
      | .ok (ps, acc4) =>
        match hypoAgentLoop K P T egoPose egoPoly useAwarenessRate
            P.COLLISION_HYPOPEDES_RATE_MAX P.EVENT_RATE_HYPOPEDES_EXP_BETA
            P.EVENT_RATE_HYPOPEDES_SIG_BETA K.collisionSeverityHypoPedes t
            snap.hypoPedestrian acc4 with
        | .error e => .error e
        | .ok (hps, acc5) =>
          match hypoAgentLoop K P T egoPose egoPoly useAwarenessRate
              P.COLLISION_HYPOVEH_RATE_MAX P.EVENT_RATE_HYPOVEH_EXP_BETA
              P.EVENT_RATE_HYPOVEH_SIG_BETA K.collisionSeverityHypoVeh t
              snap.hypoVehicle acc5 with
          | .error e => .error e
          | .ok (hvs, acc6) =>
            .ok ({ snap with
                   staticVehicle := svs
                   vehicle := vs
                   pedestrian := ps
                   hypoPedestrian := hps
                   hypoVehicle := hvs }, acc6)

/-- `EgoVehicle._riskCost` (ego_car.py lines 138–337): look up the ego
pose at the 2-decimal rounded timestamp (`KeyError` when absent), add the
limited-FOV term when enabled, run the six object loops in source order,
record `p_eventRate[t]` and `l_opt[round(u_in, 3)]`, and return
`total_risk`. -/
def EgoVehicle.riskCost (K : Kernels) (P : Params) (T : Trig) (s : EgoState)
    (snap : Snapshot) (timestamp_s u_in : ℚ) (useAwarenessRate useFOV : Bool)
    (minCollisionBrakeVehicle minCollisionBrakePedes : ℚ) :
    Except PyErr RiskOut :=
  let currentTime := s.currentPose.timestamp_s
  let t := pyRound timestamp_s 2
  match dictGet s.p_pose t with
  | none => .error .keyError
  | some egoPose =>
    let egoPoly := rectangle T egoPose.x_m egoPose.y_m egoPose.yaw_rad
      s.length s.width
    let acc0 : RiskAcc := ⟨s.brake, s.minColValue, 0, 0⟩
    let acc0 :=
      if useFOV = true then
        let lv := K.limitViewRisk s.fovRange egoPose.vdy.vx_ms egoPose.covLong
        { acc0 with rate := acc0.rate + lv.1, risk := acc0.risk + lv.2 }
      else acc0
    let egoPolygon := translatePoly egoPoly (Pose.heading T egoPose)
      P.D_BRAKE_MIN
    match riskCostLoops K P T egoPose egoPoly egoPolygon currentTime s.TTB t
        minCollisionBrakeVehicle minCollisionBrakePedes useAwarenessRate
        snap acc0 with
    | .error e => .error e
    | .ok (snapOut, acc6) =>
      let egoOut : EgoState :=
        { s with
          brake := acc6.brake
          minColValue := acc6.minColValue
          p_eventRate := dictUpdate s.p_eventRate t acc6.rate
          l_opt := dictUpdate s.l_opt (pyRound u_in 3)
            (acc6.brake, acc6.minColValue) }
      .ok { ego := egoOut, snap := snapOut, total_risk := acc6.risk }

/-- Environment state kept by `Core`: the agent and static-object lists
of the missing `environment.py` (only their list structure is needed by
the claims about `core.py`). -/
structure EnvState where
  vehicles : List Agent
  pedestrians : List Agent
  staticObjects : List Polyg

/-- Modelled from the spec (§2, §4.G): `environment.move(currentTime)`
advances every already-started agent one step of `dT` through its own
`move`. -/
def EnvState.move (P : Params) (T : Trig) (env : EnvState)
    (currentTime : ℚ) : EnvState :=
  { env with
    vehicles := env.vehicles.map fun v =>
      if v.startTime ≤ currentTime then Vehicle.move P T v P.dT else v
    pedestrians := env.pedestrians.map fun p =>
      if p.startTime ≤ currentTime then Pedestrian.move P T p P.dT else p }

/-- State of class `Core` (core.py lines 12–15). -/
structure CoreState where
  egoCar : Option EgoState
  env : EnvState
  timestamp_s : ℚ

/-- The attribute lookup `self._egoCar.optimize` performed by `Core.move`
(core.py line 22): class `EgoVehicle` (ego_car.py) defines
`optimizeState` but no method named `optimize`, so the lookup finds
nothing and the call raises `AttributeError`. -/
def egoOptimizeLookup : Option (EgoState → EgoState) := none

/-- `Core.move` (core.py lines 19–27), parameterized by the result of the
`optimize` attribute lookup on the ego (the faithful value is
`egoOptimizeLookup`): when an ego car exists and
`timestamp_s + dT ≤ SIMULATION_TIME`, call `self._egoCar.optimize()`,
then `self._env.move(currentTime)`, then
`timestamp_s := round(timestamp_s + dT, 3)` and return `True`; otherwise
return `False` and change nothing. -/
def Core.move (P : Params) (T : Trig)
    (optimizeAttr : Option (EgoState → EgoState)) (s : CoreState)
    (dT : ℚ) : Except PyErr (Bool × CoreState) :=
  match s.egoCar with
  | some ego =>
      if s.timestamp_s + dT ≤ P.SIMULATION_TIME then
        match optimizeAttr with
        | none => .error .attributeError
        | some optimizeFn =>
            let ego' := optimizeFn ego
            let env' := EnvState.move P T s.env s.timestamp_s
            .ok (true, { egoCar := some ego', env := env',
                         timestamp_s := pyRound (s.timestamp_s + dT) 3 })
      else .ok (false, s)
  | none => .ok (false, s)

/-- `Core.getCurrentEgoPoly` (core.py lines 91–94): `None` when no ego
car has been added, else the ego's current rectangle.  The state is
returned alongside to record that the accessor leaves it unchanged. -/
def Core.getCurrentEgoPoly (T : Trig) (s : CoreState) :
    Option Polyg × CoreState :=
  match s.egoCar with
  | none => (none, s)
  | some e => (some (rectangle T e.currentPose.x_m e.currentPose.y_m
                      e.currentPose.yaw_rad e.length e.width), s)

/-- `Core.getCurrentEgoPos` (core.py lines 96–100). -/
def Core.getCurrentEgoPos (s : CoreState) : Option (ℚ × ℚ) × CoreState :=
  match s.egoCar with
  | none => (none, s)
  | some e => (some (e.currentPose.x_m, e.currentPose.y_m), s)

/-- `Core.getCurrentFOV` (core.py lines 102–105); the ego's `_fov` field
is itself optional, so the `None` of a missing ego is the outer layer. -/
def Core.getCurrentFOV (s : CoreState) :
    Option (Option Polyg) × CoreState :=
  match s.egoCar with
  | none => (none, s)
  | some e => (some e.fov, s)

/-- `Core.getCurrentVelocity` (core.py lines 107–110). -/
def Core.getCurrentVelocity (s : CoreState) : Option ℚ × CoreState :=
  match s.egoCar with
  | none => (none, s)
  | some e => (some e.currentPose.vdy.vx_ms, s)

/-- `Core.getCurrentAcceleration` (core.py lines 112–115). -/
def Core.getCurrentAcceleration (s : CoreState) : Option ℚ × CoreState :=
  match s.egoCar with
  | none => (none, s)
  | some e => (some e.u, s)

/-- A concrete trigonometry interpretation used by witnesses. -/
def unitTrig : Trig := ⟨fun _ => 1, fun _ => 0⟩

/-- A concrete pose at the origin, timestamp 0, speed 0. -/
def samplePose : Pose :=
  { x_m := 0, y_m := 0, yaw_rad := 0, covLong := 1, covLat := 1,
    vdy := ⟨0, 0⟩, timestamp_s := 0 }

/-- A concrete agent at `samplePose`. -/
def sampleAgent : Agent :=
  { length := 4, width := 2, u := 0, isDetected := false, startTime := 0,
    stopTimestamp_s := 99999, pColl := 0, appearRate := 1, interactRate := 1,
    currentPose := samplePose, l_pose := [(0, samplePose)], p_pose := [] }

/-- A concrete planner state (Stop mode, zero speed, one recorded pose,
one predicted pose, one cached candidate). -/
def sampleEgo : EgoState :=
  { length := 4, width := 2, p_u := none, p_pose := [(1, samplePose)],
    p_eventRate := [], currentPose := samplePose, u := 0,
    stopState := true, driveOffState := false, defaultState := false,
    emergencyState := false, minColValue := 0, minRiskValue := 0,
    TTB := 1, brake := false, fov := none, fovRange := 20,
    l_u := [(0, 0)], l_pose := [(0, samplePose)],
    l_opt := [(0, (false, 0))] }

/-- A `Core` state with no ego vehicle. -/
def emptyCore : CoreState :=
  { egoCar := none, env := ⟨[], [], []⟩, timestamp_s := 0 }

/-- A `Core` state whose ego exists, at time 0. -/
def sampleCore : CoreState :=
  { egoCar := some sampleEgo, env := ⟨[], [], []⟩, timestamp_s := 0 }

/-- C9: when no ego vehicle has been added (`_egoCar is None`), every ego
accessor on `Core` — `getCurrentEgoPoly`, `getCurrentEgoPos`,
`getCurrentFOV`, `getCurrentVelocity`, `getCurrentAcceleration` —
returns `None` instead of raising, and the `Core` state is unchanged. -/
theorem C9_accessors_none (T : Trig) (s : CoreState) (h : s.egoCar = none) :
    Core.getCurrentEgoPoly T s = (none, s) ∧
    Core.getCurrentEgoPos s = (none, s) ∧
    Core.getCurrentFOV s = (none, s) ∧
    Core.getCurrentVelocity s = (none, s) ∧
    Core.getCurrentAcceleration s = (none, s) := by
  unfold Core.getCurrentEgoPoly Core.getCurrentEgoPos Core.getCurrentFOV
    Core.getCurrentVelocity Core.getCurrentAcceleration
  rw [h]
  exact ⟨rfl, rfl, rfl, rfl, rfl⟩

/-- Witness for C9 at the concrete ego-less state. -/
theorem C9_accessors_none_witness :
    emptyCore.egoCar = none ∧
    (Core.getCurrentEgoPoly unitTrig emptyCore = (none, emptyCore) ∧
     Core.getCurrentEgoPos emptyCore = (none, emptyCore) ∧
     Core.getCurrentFOV emptyCore = (none, emptyCore) ∧
     Core.getCurrentVelocity emptyCore = (none, emptyCore) ∧
     Core.getCurrentAcceleration emptyCore = (none, emptyCore)) :=
  ⟨rfl, C9_accessors_none unitTrig emptyCore rfl⟩

/-- C10: every call to `Vehicle.move` or `Pedestrian.move` resets the
agent's detected/visibility flag to `false` after advancing the pose, so
visibility never persists across ticks unless the environment re-sets
it. -/
theorem C10_move_resets_detected (P : Params) (T : Trig) (a b : Agent)
    (dT : ℚ) :
    (Vehicle.move P T a dT).isDetected = false ∧
    (Pedestrian.move P T b dT).isDetected = false :=
  ⟨rfl, rfl⟩

/-- C1 (code bug in `Core.move`): with the faithful `optimize` attribute
lookup, whenever an ego car exists and `timestamp_s + dT ≤
SIMULATION_TIME` the call `self._egoCar.optimize()` raises
`AttributeError` — class `EgoVehicle` defines `optimizeState` but no
`optimize` — instead of advancing ego, environment and timestamp and
returning `True` as claimed; when the guard fails the source does return
`False` and leaves the state unchanged. -/
theorem C1_move_attribute_error (P : Params) (T : Trig) (s : CoreState)
    (dT : ℚ) :
    ((∃ e, s.egoCar = some e) ∧ s.timestamp_s + dT ≤ P.SIMULATION_TIME →
      Core.move P T egoOptimizeLookup s dT = .error .attributeError) ∧
    (s.egoCar = none ∨ ¬ s.timestamp_s + dT ≤ P.SIMULATION_TIME →
      Core.move P T egoOptimizeLookup s dT = .ok (false, s)) := by
  unfold Core.move egoOptimizeLookup
  constructor
  · rintro ⟨⟨e, he⟩, hle⟩
    rw [he]
    simp [hle]
  · rintro (h | h)
    · rw [h]
    · cases hc : s.egoCar with
      | none => rfl
      | some e => simp [h]

/-- Witness for C1 at the concrete state with an ego at time 0 (the
success guard holds, the move errors) and at the ego-less state (the
move returns `False`). -/
theorem C1_move_attribute_error_witness :
    ((∃ e, sampleCore.egoCar = some e) ∧
      sampleCore.timestamp_s + 1/10 ≤ defaultParams.SIMULATION_TIME ∧
      Core.move defaultParams unitTrig egoOptimizeLookup sampleCore (1/10) =
        .error .attributeError) ∧
    (emptyCore.egoCar = none ∧
      Core.move defaultParams unitTrig egoOptimizeLookup emptyCore (1/10) =
        .ok (false, emptyCore)) := by
  constructor
  · refine ⟨⟨sampleEgo, rfl⟩, by norm_num [sampleCore, defaultParams], ?_⟩
    exact (C1_move_attribute_error defaultParams unitTrig sampleCore
      (1/10)).1 ⟨⟨sampleEgo, rfl⟩, by norm_num [sampleCore, defaultParams]⟩
  · exact ⟨rfl, (C1_move_attribute_error defaultParams unitTrig emptyCore
      (1/10)).2 (Or.inl rfl)⟩

/-- C5: for a pedestrian (whose constructor fixes `_u = 0`), each
`move(dT)` step whose rounded next timestamp has reached `stopTimestamp`
leaves the position `(x, y)` unchanged and sets `vx = 0`, while every
earlier step advances the pose by the standard kinematics `updatePose`
with input 0. -/
theorem C5_pedestrian_stop (P : Params) (T : Trig) (a : Agent) (dT : ℚ)
    (hu : a.u = 0) :
    (a.stopTimestamp_s ≤ pyRound (a.currentPose.timestamp_s + dT) 3 →
      (Pedestrian.move P T a dT).currentPose.x_m = a.currentPose.x_m ∧
      (Pedestrian.move P T a dT).currentPose.y_m = a.currentPose.y_m ∧
      (Pedestrian.move P T a dT).currentPose.vdy.vx_ms = 0) ∧
    (pyRound (a.currentPose.timestamp_s + dT) 3 < a.stopTimestamp_s →
      (Pedestrian.move P T a dT).currentPose =
        updatePose P T a.currentPose 0 dT) := by
  constructor
  · intro h
    simp only [Pedestrian.move]
    rw [if_neg (not_lt.mpr h)]
    exact ⟨rfl, rfl, rfl⟩
  · intro h
    simp only [Pedestrian.move]
    rw [if_pos h, hu]

/-- A pedestrian that has already reached its goal (`stopTimestamp` 0). -/
def stoppedPed : Agent := { sampleAgent with stopTimestamp_s := 0 }

/-- Witness for C5: with `stopTimestamp = 0` the step freezes position
and speed; with `stopTimestamp = 99999` it advances by `updatePose`. -/
theorem C5_pedestrian_stop_witness :
    (stoppedPed.u = 0 ∧
     stoppedPed.stopTimestamp_s ≤
       pyRound (stoppedPed.currentPose.timestamp_s + 1/10) 3 ∧
     (Pedestrian.move defaultParams unitTrig stoppedPed
        (1/10)).currentPose.x_m = stoppedPed.currentPose.x_m ∧
     (Pedestrian.move defaultParams unitTrig stoppedPed
        (1/10)).currentPose.y_m = stoppedPed.currentPose.y_m ∧
     (Pedestrian.move defaultParams unitTrig stoppedPed
        (1/10)).currentPose.vdy.vx_ms = 0) ∧
    (sampleAgent.u = 0 ∧
     pyRound (sampleAgent.currentPose.timestamp_s + 1/10) 3 <
       sampleAgent.stopTimestamp_s ∧
     (Pedestrian.move defaultParams unitTrig sampleAgent
        (1/10)).currentPose =
       updatePose defaultParams unitTrig sampleAgent.currentPose 0 (1/10)) := by
  have hr : pyRound ((0:ℚ) + 1/10) 3 = 1/10 := by
    rw [zero_add]
    exact pyRound_eq_self _ 3 100 (by norm_num)
  constructor
  · have h1 : stoppedPed.u = 0 := rfl
    have h2 : stoppedPed.stopTimestamp_s ≤
        pyRound (stoppedPed.currentPose.timestamp_s + 1/10) 3 := by
      show (0:ℚ) ≤ pyRound ((0:ℚ) + 1/10) 3
      rw [hr]; norm_num
    have h3 := (C5_pedestrian_stop defaultParams unitTrig stoppedPed
      (1/10) h1).1 h2
    exact ⟨h1, h2, h3.1, h3.2.1, h3.2.2⟩
  · have h1 : sampleAgent.u = 0 := rfl
    have h2 : pyRound (sampleAgent.currentPose.timestamp_s + 1/10) 3 <
        sampleAgent.stopTimestamp_s := by
      show pyRound ((0:ℚ) + 1/10) 3 < 99999
      rw [hr]; norm_num
    exact ⟨h1, h2, (C5_pedestrian_stop defaultParams unitTrig sampleAgent
      (1/10) h1).2 h2⟩

/-- C8 counterexample: `Vehicle.move` with `dT = 0.001` from timestamp 0
records the new pose under the key `round(0.001, 3) = 0.001`, which is
not the 2-decimal rounding `round(0.001, 2) = 0` the claim names. -/
theorem C8_two_decimal_counterexample :
    ((Vehicle.move defaultParams unitTrig sampleAgent (1/1000)).l_pose.map
        Prod.fst = [0, 1/1000]) ∧
    pyRound (sampleAgent.currentPose.timestamp_s + 1/1000) 2 = 0 ∧
    (1/1000 : ℚ) ≠ 0 := by
  have e1 : pyRound ((0:ℚ) + 1/1000) 3 = 1/1000 := by
    rw [zero_add]
    exact pyRound_eq_self _ 3 1 (by norm_num)
  have e2 : pyRound (sampleAgent.currentPose.timestamp_s + 1/1000) 2 = 0 := by
    show pyRound ((0:ℚ) + 1/1000) 2 = 0
    rw [zero_add]
    unfold pyRound roundHalfEven
    norm_num
  refine ⟨?_, e2, by norm_num⟩
  show List.map Prod.fst
    (dictUpdate sampleAgent.l_pose (pyRound ((0:ℚ) + 1/1000) 3) _) = _
  rw [e1]
  show List.map Prod.fst (dictUpdate [(0, samplePose)] (1/1000) _) = _
  norm_num [dictUpdate]

/-- C8 (amended): recorded timestamps are 3-decimal roundings, not
2-decimal ones: whenever `Core.move` succeeds with `True` (for any
interpretation of the `optimize` attribute) the timestamp advances to
`round(t + dT, 3)`; `Vehicle.move` keys its new pose by
`round(t + dT, 3)`; and when `dT` is an integer multiple of 0.001 the
rounding is exact, so the keys recorded by iterated vehicle moves from a
timestamp-0 start lie exactly on the global grid `k·dT`. -/
theorem C8_timestamps_three_decimals (P : Params) (T : Trig)
    (attr : Option (EgoState → EgoState)) (s : CoreState) (a : Agent)
    (dT : ℚ) :
    (∀ s', Core.move P T attr s dT = .ok (true, s') →
      s'.timestamp_s = pyRound (s.timestamp_s + dT) 3) ∧
    ((Vehicle.move P T a dT).l_pose =
      dictUpdate a.l_pose (pyRound (a.currentPose.timestamp_s + dT) 3)
        (updatePose P T a.currentPose a.u dT)) ∧
    (∀ k : ℤ, dT * 1000 = k → a.currentPose.timestamp_s = 0 →
      ∀ n : ℕ,
        ((fun x => Vehicle.move P T x dT)^[n] a).currentPose.timestamp_s
          = n * dT ∧
        pyRound
          (((fun x => Vehicle.move P T x dT)^[n] a).currentPose.timestamp_s
            + dT) 3 = (n + 1) * dT) := by
  refine ⟨?_, rfl, ?_⟩
  · intro s' h
    unfold Core.move at h
    split at h
    · split at h
      · cases attr with
        | none => simp at h
        | some f =>
            simp only [Except.ok.injEq, Prod.mk.injEq, true_and] at h
            rw [← h]
      · simp at h
    · simp at h
  · intro k hk h0 n
    have hstep : ∀ x : Agent,
        (Vehicle.move P T x dT).currentPose.timestamp_s =
          x.currentPose.timestamp_s + dT := fun x => rfl
    have htime : ∀ n : ℕ,
        ((fun x => Vehicle.move P T x dT)^[n] a).currentPose.timestamp_s
          = n * dT := by
      intro n
      induction n with
      | zero => simpa using h0
      | succ m ih =>
          rw [Function.iterate_succ_apply', hstep, ih]
          push_cast
          ring
    refine ⟨htime n, ?_⟩
    rw [htime n]
    have : ((n : ℚ) * dT + dT) * 10 ^ 3 = ((n + 1) * k : ℤ) := by
      push_cast
      rw [← hk]
      ring
    rw [pyRound_eq_self _ 3 _ this]
    ring

/-- Witness for C8 (amended): a successful `Core.move` (identity
`optimize` interpretation), and the exact grid keys of three iterated
vehicle moves at `dT = 0.1`. -/
theorem C8_timestamps_three_decimals_witness :
    (∃ s', Core.move defaultParams unitTrig (some id) sampleCore (1/10) =
        .ok (true, s') ∧
      s'.timestamp_s = pyRound (sampleCore.timestamp_s + 1/10) 3) ∧
    ((1/10 : ℚ) * 1000 = ((100 : ℤ) : ℚ) ∧
     sampleAgent.currentPose.timestamp_s = 0 ∧
     ((fun x => Vehicle.move defaultParams unitTrig x
        (1/10))^[3] sampleAgent).currentPose.timestamp_s = 3 * (1/10) ∧
     pyRound (((fun x => Vehicle.move defaultParams unitTrig x
        (1/10))^[3] sampleAgent).currentPose.timestamp_s + 1/10) 3 =
       (3 + 1) * (1/10)) := by
  constructor
  · have hmv : Core.move defaultParams unitTrig (some id) sampleCore (1/10) =
        .ok (true,
          { egoCar := some sampleEgo,
            env := EnvState.move defaultParams unitTrig sampleCore.env
              sampleCore.timestamp_s,
            timestamp_s := pyRound (sampleCore.timestamp_s + 1/10) 3 }) := by
      simp only [Core.move, sampleCore]
      norm_num [defaultParams]
    exact ⟨_, hmv,
      (C8_timestamps_three_decimals defaultParams unitTrig (some id)
        sampleCore sampleAgent (1/10)).1 _ hmv⟩
  · have h := (C8_timestamps_three_decimals defaultParams unitTrig
      (some id) sampleCore sampleAgent (1/10)).2.2 100 (by norm_num) rfl 3
    have h3 := h.1
    have h4 := h.2
    norm_num at h3 h4 ⊢
    exact ⟨rfl, h3, h4⟩

/-- C7 counterexample: on a state with a nonempty predicted-pose map,
`restart()` succeeds but leaves `_p_pose` exactly as it was — the
prediction state is not cleared. -/
theorem C7_restart_counterexample :
    (EgoVehicle.restart sampleEgo).toOption.map (fun e => e.p_pose) =
      some [(1, samplePose)] ∧
    sampleEgo.p_pose = [(1, samplePose)] ∧
    ([(1, samplePose)] : List (ℚ × Pose)) ≠ [] := by
  refine ⟨?_, rfl, by simp⟩
  rfl

/-- C7 (amended): `restart()` truncates the pose and input histories to
the single earliest entry, restores the current pose and `u` from that
entry and resets the mode to Default; it leaves the prediction state
(`_p_pose`, `_p_u`, `_p_eventRate`) untouched rather than clearing it. -/
theorem C7_restart_truncates (s : EgoState) (t : ℚ) (p0 : Pose) (u0 : ℚ)
    (hmin : (s.l_pose.map Prod.fst).min? = some t)
    (hp : dictGet s.l_pose t = some p0)
    (hu : dictGet s.l_u t = some u0) :
    EgoVehicle.restart s = .ok (EgoVehicle.toDefaultState
      { s with l_pose := [(t, p0)], u := u0, l_u := [(t, u0)],
               currentPose := p0 }) ∧
    ∀ s', EgoVehicle.restart s = .ok s' →
      s'.p_pose = s.p_pose ∧ s'.p_u = s.p_u ∧
      s'.p_eventRate = s.p_eventRate := by
  have hmain : EgoVehicle.restart s = .ok (EgoVehicle.toDefaultState
      { s with l_pose := [(t, p0)], u := u0, l_u := [(t, u0)],
               currentPose := p0 }) := by
    simp only [EgoVehicle.restart, hmin, hp, hu]
  refine ⟨hmain, ?_⟩
  intro s' h
  rw [hmain] at h
  injection h with h2
  subst h2
  exact ⟨rfl, rfl, rfl⟩

/-- Witness for C7 (amended) at the concrete planner state. -/
theorem C7_restart_truncates_witness :
    ((sampleEgo.l_pose.map Prod.fst).min? = some 0 ∧
     dictGet sampleEgo.l_pose 0 = some samplePose ∧
     dictGet sampleEgo.l_u 0 = some 0) ∧
    EgoVehicle.restart sampleEgo = .ok (EgoVehicle.toDefaultState
      { sampleEgo with l_pose := [(0, samplePose)], u := 0,
                       l_u := [(0, 0)], currentPose := samplePose }) := by
  have h1 : (sampleEgo.l_pose.map Prod.fst).min? = some 0 := rfl
  have h2 : dictGet sampleEgo.l_pose 0 = some samplePose := by
    simp [sampleEgo, dictGet]
  have h3 : dictGet sampleEgo.l_u 0 = some 0 := by
    simp [sampleEgo, dictGet]
  exact ⟨⟨h1, h2, h3⟩,
    (C7_restart_truncates sampleEgo 0 samplePose 0 h1 h2 h3).1⟩


/-- `_move` from standstill with predicted input 0: the vehicle stays at
`vx = 0`, so the step ends in Stop with `u = 0` and `p_u` still 0. -/
theorem moveStep_zero_input (P : Params) (T : Trig) (s : EgoState) (dT : ℚ)
    (hpu : s.p_u = some 0) (hvx : s.currentPose.vdy.vx_ms = 0) :
    (EgoVehicle.moveStep P T s dT).stopState = true ∧
    (EgoVehicle.moveStep P T s dT).driveOffState = false ∧
    (EgoVehicle.moveStep P T s dT).defaultState = false ∧
    (EgoVehicle.moveStep P T s dT).emergencyState = false ∧
    (EgoVehicle.moveStep P T s dT).p_u = some 0 ∧
    (EgoVehicle.moveStep P T s dT).u = 0 := by
  have hvx' : (updatePose P T s.currentPose 0 dT).vdy.vx_ms = 0 := by
    simp [updatePose, hvx]
  norm_num [EgoVehicle.moveStep, hpu, hvx', EgoVehicle.toStopState,
            EgoVehicle.toDefaultState]

/-- `_move` from standstill with a positive predicted input bounded by 2
(and `dT ≤ 1`): the new speed is in `(0, 2]`, so neither the Stop nor the
DriveOff-to-Default transition fires; the mode flags and `p_u` are kept
and `u := p_u` is committed. -/
theorem moveStep_pos_input (P : Params) (T : Trig) (s : EgoState)
    (dT pu : ℚ) (hpu : s.p_u = some pu) (hvx : s.currentPose.vdy.vx_ms = 0)
    (hpu0 : 0 < pu) (hpu2 : pu ≤ 2) (hdT0 : 0 < dT) (hdT1 : dT ≤ 1) :
    (EgoVehicle.moveStep P T s dT).stopState = s.stopState ∧
    (EgoVehicle.moveStep P T s dT).driveOffState = s.driveOffState ∧
    (EgoVehicle.moveStep P T s dT).defaultState = s.defaultState ∧
    (EgoVehicle.moveStep P T s dT).emergencyState = s.emergencyState ∧
    (EgoVehicle.moveStep P T s dT).p_u = some pu ∧
    (EgoVehicle.moveStep P T s dT).u = pu := by
  have hvx' : (updatePose P T s.currentPose pu dT).vdy.vx_ms = pu * dT := by
    simp [updatePose, hvx]
    exact le_of_lt (mul_pos hpu0 hdT0)
  have hne : ¬ ((updatePose P T s.currentPose pu dT).vdy.vx_ms = 0) := by
    rw [hvx']
    exact ne_of_gt (mul_pos hpu0 hdT0)
  have hn5 : ¬ ((5:ℚ) < (updatePose P T s.currentPose pu dT).vdy.vx_ms) := by
    rw [hvx']
    nlinarith
  simp only [EgoVehicle.moveStep, hpu]
  rw [if_neg hne]
  rw [if_neg (fun hcon => hn5 (And.left hcon))]
  exact ⟨rfl, rfl, rfl, rfl, rfl, rfl⟩

/-- C2: in every tick that starts in Stop mode, after the bounded search
returns candidate `val` and `_l_opt[round(val, 3)]` yields `(b, m)`: if
the brake flag is set or `minColValue > 0.5` the planner stays in Stop
and sets `p_u = 0` and `u = 0`; otherwise it transitions to DriveOff and
sets `p_u = u + (val − u)·dT/PREDICT_STEP`.  Standstill (`vx = 0`, the
Stop-mode invariant) and the parameter ranges of the Stop search
(`0 ≤ u ≤ 2`, `0 < val ≤ 1`, `0 < dT ≤ 1`, `dT ≤ predictStep`) are
assumed. -/
theorem C2_stop_mode_transition (P : Params) (T : Trig) (s : EgoState)
    (dT predictStep val : ℚ) (b : Bool) (m : ℚ)
    (_hstop : s.stopState = true)
    (hvx : s.currentPose.vdy.vx_ms = 0)
    (hlook : dictGet s.l_opt (pyRound val 3) = some (b, m))
    (hu0 : 0 ≤ s.u) (hu2 : s.u ≤ 2) (hval0 : 0 < val) (hval1 : val ≤ 1)
    (hdT0 : 0 < dT) (hdT1 : dT ≤ 1) (hdTp : dT ≤ predictStep) :
    ∃ s', EgoVehicle.optimizeStateStop P T s dT predictStep val = .ok s' ∧
      ((b = true ∨ 1/2 < m) →
        s'.stopState = true ∧ s'.driveOffState = false ∧
        s'.defaultState = false ∧ s'.emergencyState = false ∧
        s'.p_u = some 0 ∧ s'.u = 0) ∧
      ((b = false ∧ m ≤ 1/2) →
        s'.driveOffState = true ∧ s'.stopState = false ∧
        s'.defaultState = false ∧ s'.emergencyState = false ∧
        s'.p_u = some (s.u + (val - s.u) * dT / predictStep)) := by
  have hps : (0:ℚ) < predictStep := lt_of_lt_of_le hdT0 hdTp
  simp only [EgoVehicle.optimizeStateStop, hlook]
  by_cases hcond : b = true ∨ 1/2 < m
  · rw [if_pos hcond]
    refine ⟨_, rfl, fun _ => ?_, fun hneg => ?_⟩
    · exact moveStep_zero_input P T _ dT rfl hvx
    · rcases hcond with hb | hm
      · rw [hneg.1] at hb
        exact absurd hb (by simp)
      · exact absurd hm (not_lt.mpr hneg.2)
  · rw [if_neg hcond]
    have hkey : (s.u + (val - s.u) * dT / predictStep) * predictStep =
        s.u * (predictStep - dT) + val * dT := by
      field_simp
      ring
    have hpul : 0 < s.u + (val - s.u) * dT / predictStep := by
      nlinarith [hkey, mul_pos hval0 hdT0,
        mul_nonneg hu0 (sub_nonneg.mpr hdTp)]
    have hpuu : s.u + (val - s.u) * dT / predictStep ≤ 2 := by
      nlinarith [hkey, mul_le_mul_of_nonneg_right hu2
        (sub_nonneg.mpr hdTp),
        mul_le_mul_of_nonneg_right hval1 (le_of_lt hdT0)]
    have h := moveStep_pos_input P T
      { EgoVehicle.toDriveOffState { s with brake := b, minColValue := m }
        with p_u := some (s.u + (val - s.u) * dT / predictStep) } dT
      (s.u + (val - s.u) * dT / predictStep) rfl hvx hpul hpuu hdT0 hdT1
    refine ⟨_, rfl, fun hpos => absurd hpos hcond, fun _ => ?_⟩
    exact ⟨h.2.1, h.1, h.2.2.1, h.2.2.2.1, h.2.2.2.2.1⟩

/-- A Stop-mode planner state whose candidate cache reports a braking
candidate at `round(0.5, 3)`. -/
def brakeStopEgo : EgoState := { sampleEgo with l_opt := [(1/2, (true, 0))] }

/-- A Stop-mode planner state whose candidate cache reports a risk-free
candidate at `round(0.5, 3)`. -/
def freeStopEgo : EgoState := { sampleEgo with l_opt := [(1/2, (false, 0))] }

/-- Witness for C2 at `val = 0.5`, `dT = 0.1`, `predictStep = 0.2`: with
a braking cache entry the tick stays in Stop with `p_u = 0`, `u = 0`;
with a clean entry it transitions to DriveOff with the interpolated
`p_u`. -/
theorem C2_stop_mode_transition_witness :
    (brakeStopEgo.stopState = true ∧
     dictGet brakeStopEgo.l_opt (pyRound (1/2) 3) = some (true, 0) ∧
     ∃ s', EgoVehicle.optimizeStateStop defaultParams unitTrig brakeStopEgo
         (1/10) (1/5) (1/2) = .ok s' ∧ s'.stopState = true ∧
       s'.p_u = some 0 ∧ s'.u = 0) ∧
    (freeStopEgo.stopState = true ∧
     dictGet freeStopEgo.l_opt (pyRound (1/2) 3) = some (false, 0) ∧
     ∃ s', EgoVehicle.optimizeStateStop defaultParams unitTrig freeStopEgo
         (1/10) (1/5) (1/2) = .ok s' ∧ s'.driveOffState = true ∧
       s'.stopState = false ∧
       s'.p_u = some (freeStopEgo.u + (1/2 - freeStopEgo.u) *
         (1/10) / (1/5))) := by
  have hr : pyRound ((1:ℚ)/2) 3 = 1/2 := pyRound_eq_self _ 3 500 (by norm_num)
  constructor
  · have hlook1 : dictGet brakeStopEgo.l_opt (pyRound (1/2) 3) =
        some (true, 0) := by
      rw [hr]
      simp [brakeStopEgo, sampleEgo, dictGet]
    obtain ⟨s', hs, hpos, _⟩ := C2_stop_mode_transition defaultParams
      unitTrig brakeStopEgo (1/10) (1/5) (1/2) true 0 rfl rfl hlook1
      (by norm_num [brakeStopEgo, sampleEgo])
      (by norm_num [brakeStopEgo, sampleEgo])
      (by norm_num) (by norm_num) (by norm_num) (by norm_num) (by norm_num)
    have h := hpos (Or.inl rfl)
    exact ⟨rfl, hlook1, s', hs, h.1, h.2.2.2.2.1, h.2.2.2.2.2⟩
  · have hlook2 : dictGet freeStopEgo.l_opt (pyRound (1/2) 3) =
        some (false, 0) := by
      rw [hr]
      simp [freeStopEgo, sampleEgo, dictGet]
    obtain ⟨s', hs, _, hneg⟩ := C2_stop_mode_transition defaultParams
      unitTrig freeStopEgo (1/10) (1/5) (1/2) false 0 rfl rfl hlook2
      (by norm_num [freeStopEgo, sampleEgo])
      (by norm_num [freeStopEgo, sampleEgo])
      (by norm_num) (by norm_num) (by norm_num) (by norm_num) (by norm_num)
    have h := hneg ⟨rfl, by norm_num⟩
    exact ⟨rfl, hlook2, s', hs, h.1, h.2.1, h.2.2.2.2⟩

/-- The hypothetical-agent loop never modifies the planner's `_brake` or
`_minColValue`: whatever accumulator it returns agrees with its input on
those two fields. -/
theorem hypoAgentLoop_preserves (K : Kernels) (P : Params) (T : Trig)
    (egoPose : Pose) (egoPoly : Polyg) (ua : Bool)
    (rateMax expBeta sigBeta : ℚ) (sevFn : ℚ → ℚ → ℚ) (t : ℚ) :
    ∀ (l : List Agent) (acc : RiskAcc) (out : List Agent × RiskAcc),
      hypoAgentLoop K P T egoPose egoPoly ua rateMax expBeta sigBeta sevFn t
        l acc = .ok out →
      out.2.brake = acc.brake ∧ out.2.minColValue = acc.minColValue := by
  intro l
  induction l with
  | nil =>
      intro acc out h
      simp only [hypoAgentLoop, Except.ok.injEq] at h
      rw [← h]
      exact ⟨rfl, rfl⟩
  | cons hv rest ih =>
      intro acc out h
      simp only [hypoAgentLoop] at h
      split at h
      · exact absurd h (by simp)
      · split at h
        · exact absurd h (by simp)
        · rename_i heq2
          simp only [Except.ok.injEq] at h
          rw [← h]
          have key := ih _ _ heq2
          exact ⟨key.1, key.2⟩


/-- Frame property of the loop stage: emptying the two hypothetical
lists preserves success and leaves the resulting `_brake` and
`_minColValue` unchanged. -/
theorem riskCostLoops_hypo_frame (K : Kernels) (P : Params) (T : Trig)
    (egoPose : Pose) (egoPoly egoPolygon : Polyg) (currentTime TTB t : ℚ)
    (mv mp : ℚ) (ua : Bool) (snap : Snapshot) (acc0 : RiskAcc)
    (out : Snapshot × RiskAcc)
    (h : riskCostLoops K P T egoPose egoPoly egoPolygon currentTime TTB t
      mv mp ua snap acc0 = .ok out) :
    ∃ out', riskCostLoops K P T egoPose egoPoly egoPolygon currentTime TTB t
        mv mp ua { snap with hypoPedestrian := [], hypoVehicle := [] }
        acc0 = .ok out' ∧
      out'.2.brake = out.2.brake ∧
      out'.2.minColValue = out.2.minColValue := by
  simp only [riskCostLoops] at h ⊢
  split at h
  · exact absurd h (by simp)
  · rename_i svs acc2 heq2
    split at h
    · exact absurd h (by simp)
    · rename_i vs acc3 heq3
      split at h
      · exact absurd h (by simp)
      · rename_i ps acc4 heq4
        split at h
        · exact absurd h (by simp)
        · rename_i hps acc5 heq5
          split at h
          · exact absurd h (by simp)
          · rename_i hvs acc6 heq6
            simp only [hypoAgentLoop, Except.ok.injEq] at h ⊢
            have k5 := hypoAgentLoop_preserves K P T _ _ _ _ _ _ _ _
              _ _ _ heq5
            have k6 := hypoAgentLoop_preserves K P T _ _ _ _ _ _ _ _
              _ _ _ heq6
            refine ⟨_, rfl, ?_, ?_⟩
            · rw [← h]
              exact (k6.1.trans k5.1).symm
            · rw [← h]
              exact (k6.2.trans k5.2).symm

/-- C4: in every `_riskCost` evaluation, the contributions of
hypothetical pedestrians and hypothetical vehicles never modify the
planner's brake flag or its `minColValue`: whenever the evaluation
completes, its brake and `minColValue` equal those of the same
evaluation with both hypothetical lists emptied, in which only static
objects, static vehicles, moving vehicles and pedestrians are
processed. -/
theorem C4_hypo_agents_never_brake (K : Kernels) (P : Params) (T : Trig)
    (s : EgoState) (snap : Snapshot) (timestamp_s u_in : ℚ)
    (ua uf : Bool) (mv mp : ℚ) (out : RiskOut)
    (h : EgoVehicle.riskCost K P T s snap timestamp_s u_in ua uf mv mp =
      .ok out) :
    ∃ out', EgoVehicle.riskCost K P T s
        { snap with hypoPedestrian := [], hypoVehicle := [] }
        timestamp_s u_in ua uf mv mp = .ok out' ∧
      out'.ego.brake = out.ego.brake ∧
      out'.ego.minColValue = out.ego.minColValue := by
  unfold EgoVehicle.riskCost at h ⊢
  cases hdg : dictGet s.p_pose (pyRound timestamp_s 2) with
  | none => simp only [hdg] at h; exact absurd h (by simp)
  | some egoPose =>
      simp only [hdg] at h ⊢
      cases hrl : riskCostLoops K P T egoPose
          (rectangle T egoPose.x_m egoPose.y_m egoPose.yaw_rad s.length
            s.width)
          (translatePoly
            (rectangle T egoPose.x_m egoPose.y_m egoPose.yaw_rad s.length
              s.width) (Pose.heading T egoPose) P.D_BRAKE_MIN)
          s.currentPose.timestamp_s s.TTB (pyRound timestamp_s 2) mv mp ua
          snap
          (if uf = true then
            { brake := s.brake, minColValue := s.minColValue,
              rate := 0 + (K.limitViewRisk s.fovRange egoPose.vdy.vx_ms
                egoPose.covLong).1,
              risk := 0 + (K.limitViewRisk s.fovRange egoPose.vdy.vx_ms
                egoPose.covLong).2 }
          else { brake := s.brake, minColValue := s.minColValue,
                 rate := 0, risk := 0 }) with
      | error e => rw [hrl] at h; exact absurd h (by simp)
      | ok out0 =>
          rw [hrl] at h
          obtain ⟨out', hout', hb, hm⟩ := riskCostLoops_hypo_frame K P T
            egoPose _ _ _ _ _ _ _ _ _ _ _ hrl
          rw [hout']
          obtain ⟨snap0, acc6⟩ := out0
          obtain ⟨snap0', acc6'⟩ := out'
          simp only [Except.ok.injEq] at h ⊢
          refine ⟨_, rfl, ?_, ?_⟩
          · rw [← h]
            exact hb
          · rw [← h]
            exact hm

/-- A concrete kernel interpretation (all scores zero, `vxUtm = vx`,
no polygon intersections) for witnesses. -/
def zeroKernels : Kernels :=
  { polygonIntersects := fun _ _ => false
    collisionIndicator := fun _ _ _ _ => 0
    collisionEventRate := fun _ _ _ _ => 0
    collisionEventSeverity := fun _ _ _ => 0
    collisionSeverityHypoPedes := fun _ _ => 0
    collisionSeverityHypoVeh := fun _ _ => 0
    vxUtm := fun p => p.vdy.vx_ms
    limitViewRisk := fun _ _ _ => (0, 0) }

/-- A snapshot containing one hypothetical pedestrian whose prediction
covers timestamp 1. -/
def sampleSnap : Snapshot :=
  { staticObject := [], staticVehicle := [], vehicle := [], pedestrian := [],
    hypoPedestrian := [{ sampleAgent with p_pose := [(1, samplePose)] }],
    hypoVehicle := [] }

/-- Witness for C4: a completed `_riskCost` evaluation over `sampleSnap`
(one hypothetical pedestrian) whose brake and `minColValue` agree with
the run over the hypothetical-free snapshot. -/
theorem C4_hypo_agents_never_brake_witness :
    ∃ out out',
      EgoVehicle.riskCost zeroKernels defaultParams unitTrig sampleEgo
        sampleSnap 1 0 false false (1/2) (1/5) = .ok out ∧
      EgoVehicle.riskCost zeroKernels defaultParams unitTrig sampleEgo
        { sampleSnap with hypoPedestrian := [], hypoVehicle := [] } 1 0
        false false (1/2) (1/5) = .ok out' ∧
      out'.ego.brake = out.ego.brake ∧
      out'.ego.minColValue = out.ego.minColValue := by
  have hpr : pyRound (1:ℚ) 2 = 1 := pyRound_eq_self _ 2 100 (by norm_num)
  have key : ∃ out, EgoVehicle.riskCost zeroKernels defaultParams unitTrig
      sampleEgo sampleSnap 1 0 false false (1/2) (1/5) = .ok out := by
    norm_num [EgoVehicle.riskCost, riskCostLoops, staticObjLoop,
      staticVehLoop, movingAgentLoop, hypoAgentLoop, Vehicle.getPredictAt,
      Vehicle.setCollisionProb, dictGet, zeroKernels, sampleEgo, sampleSnap,
      sampleAgent, samplePose, hpr]
  obtain ⟨out, hout⟩ := key
  obtain ⟨out', h1, h2, h3⟩ := C4_hypo_agents_never_brake zeroKernels
    defaultParams unitTrig sampleEgo sampleSnap 1 0 false false (1/2) (1/5)
    out hout
  exact ⟨out, out', hout, h1, h2, h3⟩

/-- C6 (code bug): if an agent has no pose at the requested predicted
timestamp even after the lazy re-predict, `Vehicle.getPredictAt` raises
`KeyError` — it can never return `None` — so the `if vehPose is None:
continue` guard of `_riskCost` is unreachable and `_riskCost` aborts
with `KeyError` instead of skipping the agent's contribution as the
claim (and spec §7 NoPrediction) states. -/
theorem C6_missing_prediction_raises (K : Kernels) (P : Params) (T : Trig)
    (s : EgoState) (snap : Snapshot) (v : Agent) (timestamp_s u_in : ℚ)
    (ua uf : Bool) (mv mp : ℚ) (egoPose : Pose)
    (hego : dictGet s.p_pose (pyRound timestamp_s 2) = some egoPose)
    (hmiss0 : dictGet v.p_pose (pyRound timestamp_s 2) = none)
    (hmiss : dictGet (Vehicle.predict P T v).p_pose
      (pyRound timestamp_s 2) = none)
    (hso : snap.staticObject = []) (hsv : snap.staticVehicle = [])
    (hv : snap.vehicle = [v]) :
    Vehicle.getPredictAt P T v (pyRound timestamp_s 2) =
      .error .keyError ∧
    EgoVehicle.riskCost K P T s snap timestamp_s u_in ua uf mv mp =
      .error .keyError := by
  have hg : Vehicle.getPredictAt P T v (pyRound timestamp_s 2) =
      .error .keyError := by
    simp only [Vehicle.getPredictAt, hmiss0, Option.isNone_none, if_true,
      hmiss]
  refine ⟨hg, ?_⟩
  simp only [EgoVehicle.riskCost, riskCostLoops, hego, hso, hsv, hv,
    staticObjLoop, staticVehLoop, movingAgentLoop, hg]

/-- A planner state whose predicted poses contain (only) timestamp 100,
far beyond any agent's prediction horizon. -/
def farEgo : EgoState := { sampleEgo with p_pose := [(100, samplePose)] }

/-- A snapshot holding one real vehicle (`sampleAgent`) and nothing
else. -/
def oneVehicleSnap : Snapshot :=
  { staticObject := [], staticVehicle := [], vehicle := [sampleAgent],
    pedestrian := [], hypoPedestrian := [], hypoVehicle := [] }

/-- Witness for C6 at timestamp 100: `sampleAgent`'s lazy prediction
covers only `[0.1, 3.0]`, so the lookup misses and `_riskCost` aborts
with `KeyError`. -/
theorem C6_missing_prediction_raises_witness :
    (dictGet farEgo.p_pose (pyRound 100 2) = some samplePose ∧
     dictGet sampleAgent.p_pose (pyRound 100 2) = none ∧
     dictGet (Vehicle.predict defaultParams unitTrig sampleAgent).p_pose
       (pyRound 100 2) = none) ∧
    Vehicle.getPredictAt defaultParams unitTrig sampleAgent
      (pyRound 100 2) = .error .keyError ∧
    EgoVehicle.riskCost zeroKernels defaultParams unitTrig farEgo
      oneVehicleSnap 100 0 false false (1/2) (1/5) =
      .error .keyError := by
  have hpr : pyRound (100:ℚ) 2 = 100 :=
    pyRound_eq_self _ 2 10000 (by norm_num)
  have hego : dictGet farEgo.p_pose (pyRound 100 2) = some samplePose := by
    rw [hpr]
    simp [farEgo, sampleEgo, dictGet]
  have hmiss0 : dictGet sampleAgent.p_pose (pyRound 100 2) = none := by
    rw [hpr]
    rfl
  have hpred : (Vehicle.predict defaultParams unitTrig sampleAgent).p_pose =
      updatePoseListAux defaultParams unitTrig 0 (1/10) 30 samplePose := by
    show updatePoseList defaultParams unitTrig samplePose 0 _ _ = _
    unfold updatePoseList
    norm_num [sampleAgent, samplePose, defaultParams]
    rfl
  have hmiss : dictGet (Vehicle.predict defaultParams unitTrig
      sampleAgent).p_pose (pyRound 100 2) = none := by
    rw [hpr, hpred]
    apply dictGet_eq_none
    intro kv hkv
    have hb := updatePoseListAux_key_le defaultParams unitTrig 0 (1/10)
      (by norm_num) 30 samplePose kv hkv
    intro hk
    rw [hk] at hb
    norm_num [samplePose] at hb
  have h := C6_missing_prediction_raises zeroKernels defaultParams unitTrig
    farEgo oneVehicleSnap sampleAgent 100 0 false false (1/2) (1/5)
    samplePose hego hmiss0 hmiss rfl rfl rfl
  exact ⟨⟨hego, hmiss0, hmiss⟩, h.1, h.2⟩

/-- In a strictly sorted key list, every key of the prefix `take (i+1)`
is at most the `i`-th key. -/
theorem sorted_take_le_get (ks : List ℚ) (hsort : ks.Sorted (· < ·))
    (i : ℕ) (hi : i < ks.length) :
    ∀ k ∈ ks.take (i + 1), k ≤ ks.get ⟨i, hi⟩ := by
  intro k hk
  obtain ⟨m, hm, hma⟩ := List.mem_take_iff_getElem.mp hk
  have hmlen : m < ks.length := lt_of_lt_of_le hm (min_le_right _ _)
  have hmi : m ≤ i :=
    Nat.lt_succ_iff.mp (lt_of_lt_of_le hm (min_le_left _ _))
  rcases eq_or_lt_of_le hmi with rfl | hlt
  · rw [← hma]
    simp [List.get_eq_getElem]
  · have h2 : ks.get ⟨m, hmlen⟩ < ks.get ⟨i, hi⟩ :=
      List.pairwise_iff_get.mp hsort ⟨m, hmlen⟩ ⟨i, hi⟩ hlt
    rw [← hma]
    exact le_of_lt (by simpa [List.get_eq_getElem] using h2)

/-- Over a sorted key prefix, the `k ≤ timestamp` filter of
`_survivalRate` keeps every recorded rate, so the exponent is the full
accumulated sum times the step. -/
theorem survivalExponent_take (escapeRate dT : ℚ) (rateAt : ℚ → ℚ)
    (ks : List ℚ) (hsort : ks.Sorted (· < ·)) (i : ℕ)
    (hi : i < ks.length) :
    survivalExponent escapeRate dT
        ((ks.take (i + 1)).map fun k => (k, rateAt k)) (ks.get ⟨i, hi⟩)
      = (escapeRate + ((ks.take (i + 1)).map rateAt).sum) * dT := by
  unfold survivalExponent
  have hfil : ((ks.take (i + 1)).map fun k => (k, rateAt k)).filter
      (fun kv => kv.1 ≤ ks.get ⟨i, hi⟩) =
      (ks.take (i + 1)).map fun k => (k, rateAt k) := by
    apply List.filter_eq_self.mpr
    intro kv hkv
    obtain ⟨k, hk, rfl⟩ := List.mem_map.mp hkv
    simpa using sorted_take_le_get ks hsort i hi k hk
  rw [hfil, List.map_map]
  rfl

/-- With non-negative rates, the accumulated rate sum grows along the
prediction horizon. -/
theorem sum_take_mono (rateAt : ℚ → ℚ) (ks : List ℚ)
    (hr : ∀ k, 0 ≤ rateAt k) (i j : ℕ) (hij : i ≤ j) :
    ((ks.take (i + 1)).map rateAt).sum ≤
      ((ks.take (j + 1)).map rateAt).sum := by
  have h1 : ks.take (i + 1) = (ks.take (j + 1)).take (i + 1) := by
    rw [List.take_take, min_eq_left (by omega)]
  rw [h1]
  conv_rhs => rw [← List.take_append_drop (i + 1) (ks.take (j + 1))]
  rw [List.map_append, List.sum_append]
  apply le_add_of_nonneg_right
  apply List.sum_nonneg
  intro x hx
  obtain ⟨k, _, rfl⟩ := List.mem_map.mp hx
  exact hr k

/-- The survival exponent at the `i`-th step of one `_computeTotalCost`
run (ego_car.py lines 382–399): when `_survivalRate` is called at the
`i`-th predicted timestamp, `_p_eventRate` holds exactly the rates of
the first `i + 1` timestamps; the survival weight of the source is
`exp` of the negated exponent. -/
def totalCostSurvivalExponent (escapeRate dT : ℚ) (rateAt : ℚ → ℚ)
    (ks : List ℚ) (i : ℕ) (hi : i < ks.length) : ℚ :=
  survivalExponent escapeRate dT
    ((ks.take (i + 1)).map fun k => (k, rateAt k)) (ks.get ⟨i, hi⟩)

/-- C3: within a single `_computeTotalCost` evaluation the survival
weight `S(k) = exp(−(escapeRate + Σ_{k' ≤ k} rate(k'))·dT)` computed for
successive predicted timestamps is monotone non-increasing in `k`, for
every per-step rate assignment that is non-negative (and any
non-negative step), the predicted timestamps being strictly
increasing. -/
theorem C3_survival_monotone (escapeRate dT : ℚ) (rateAt : ℚ → ℚ)
    (ks : List ℚ) (i j : ℕ) (hi : i < ks.length) (hj : j < ks.length)
    (hij : i ≤ j) (hsort : ks.Sorted (· < ·)) (hdT : 0 ≤ dT)
    (hr : ∀ k, 0 ≤ rateAt k) :
    Real.exp (-(totalCostSurvivalExponent escapeRate dT rateAt ks j hj : ℝ))
      ≤ Real.exp
        (-(totalCostSurvivalExponent escapeRate dT rateAt ks i hi : ℝ)) := by
  have key : totalCostSurvivalExponent escapeRate dT rateAt ks i hi ≤
      totalCostSurvivalExponent escapeRate dT rateAt ks j hj := by
    unfold totalCostSurvivalExponent
    rw [survivalExponent_take escapeRate dT rateAt ks hsort i hi,
        survivalExponent_take escapeRate dT rateAt ks hsort j hj]
    apply mul_le_mul_of_nonneg_right _ hdT
    have := sum_take_mono rateAt ks hr i j hij
    linarith
  apply Real.exp_le_exp.mpr
  apply neg_le_neg
  exact_mod_cast key

/-- Witness for C3 on the concrete run with timestamps `[1, 2]`, unit
rates, `escapeRate = 0`, `dT = 1`. -/
theorem C3_survival_monotone_witness :
    List.Sorted (fun a b => a < b) ([1, 2] : List ℚ) ∧
    (0:ℚ) ≤ 1 ∧ (∀ k : ℚ, 0 ≤ (fun _ => (1:ℚ)) k) ∧
    Real.exp (-(totalCostSurvivalExponent 0 1 (fun _ => 1) [1, 2] 1
        (by norm_num) : ℝ))
      ≤ Real.exp (-(totalCostSurvivalExponent 0 1 (fun _ => 1) [1, 2] 0
        (by norm_num) : ℝ)) := by
  have hsort : List.Sorted (fun a b => a < b) ([1, 2] : List ℚ) := by
    norm_num [List.sorted_cons]
  refine ⟨hsort, by norm_num, fun k => by norm_num, ?_⟩
  exact C3_survival_monotone 0 1 (fun _ => 1) [1, 2] 0 1 (by norm_num)
    (by norm_num) (by norm_num) hsort (by norm_num) (fun k => by norm_num)
